import Mathlib

/-!
Verification of the building-lights-off system (three Python scripts:
`dev001.py` BMS controller, `dev002.py` smart-home scanner, `dev003.py`
building controller) against its natural-language specification.

Shallow embedding: network effects are abstracted into outcome values
supplied as arguments; the control flow of each source function is
translated directly.
-/

namespace LightsOff

/-- Outcome of invoking one turn-off strategy (`dev001.py`,
`turn_off_all_lights` loop body): the Python callable either returns a
boolean (`ok b`) or raises an exception (`exc`), which the dispatcher's
`try/except` swallows. -/
inductive Outcome
  | ok (b : Bool)
  | exc
deriving DecidableEq, Repr

/-- A strategy outcome counts as success exactly when the callable
returned `True` (HTTP 200/201/202 or transport completion in the source). -/
def strategySuccess : Outcome → Bool
  | Outcome.ok true => true
  | _ => false

/-- `BMSLightController.turn_off_all_lights` (`dev001.py:216-238`): walk the
ordered method list; a `True` return stops the loop with overall success;
a `False` return or an exception moves to the next method; exhaustion
returns `False`. The list argument is the sequence of per-strategy
outcomes the stubbed network would produce. -/
def turn_off_all_lights : List Outcome → Bool
  | [] => false
  | Outcome.ok true :: _ => true
  | _ :: rest => turn_off_all_lights rest

/-- Index of the first strategy whose outcome is success, as identified by
the dispatch loop (the source logs the succeeding method and returns). -/
def firstSuccess : List Outcome → Option Nat
  | [] => none
  | Outcome.ok true :: _ => some 0
  | _ :: rest => (firstSuccess rest).map (· + 1)

/-- Number of strategies the dispatch loop actually invokes: every
strategy up to and including the first success, or all of them. -/
def invokedCount : List Outcome → Nat
  | [] => 0
  | Outcome.ok true :: _ => 1
  | _ :: rest => invokedCount rest + 1

/-- `BuildingLightController.emergency_light_off` unknown-protocol branch
(`dev003.py:226-236`): try each method in order, return `True` on the
first `True`, else `False` after the loop. Each method catches its own
exceptions and returns a boolean, so the outcome list is `List Bool`. -/
def emergency_light_off : List Bool → Bool
  | [] => false
  | true :: _ => true
  | false :: rest => emergency_light_off rest

/-- Two consecutive invocations of `turn_off_all_lights` against a stub
controller whose per-strategy responses do not change between the two
dispatches (`dev001.py:216-238` is stateless with respect to light state:
success is transport-level acceptance). -/
def dispatch_twice (outcomes : List Outcome) : Bool × Bool :=
  (turn_off_all_lights outcomes, turn_off_all_lights outcomes)

/- Helper lemmas about the dispatch loop. -/

theorem turn_off_all_lights_eq_any (outcomes : List Outcome) :
    turn_off_all_lights outcomes = outcomes.any strategySuccess := by
  induction outcomes with
  | nil => rfl
  | cons o rest ih =>
    cases o with
    | ok b =>
      cases b with
      | true => simp [turn_off_all_lights, strategySuccess]
      | false => simpa [turn_off_all_lights, strategySuccess] using ih
    | exc => simpa [turn_off_all_lights, strategySuccess] using ih

theorem emergency_eq_dispatch (bs : List Bool) :
    emergency_light_off bs = turn_off_all_lights (bs.map Outcome.ok) := by
  induction bs with
  | nil => rfl
  | cons b rest ih =>
    cases b with
    | true => rfl
    | false => simpa [emergency_light_off, turn_off_all_lights] using ih

theorem dispatch_core (outcomes : List Outcome) (k : Nat)
    (hk : outcomes.get? k = some (Outcome.ok true))
    (hfirst : ∀ j, j < k → outcomes.get? j ≠ some (Outcome.ok true)) :
    invokedCount outcomes = k + 1 ∧
    turn_off_all_lights outcomes = true ∧
    firstSuccess outcomes = some k := by
  induction outcomes generalizing k with
  | nil => simp [List.get?] at hk
  | cons o rest ih =>
    cases k with
    | zero =>
      simp only [List.get?] at hk
      cases hk
      exact ⟨rfl, rfl, rfl⟩
    | succ k' =>
      have hhead : o ≠ Outcome.ok true := by
        have := hfirst 0 (Nat.succ_pos k')
        simpa [List.get?] using this
      have hrest : invokedCount rest = k' + 1 ∧
          turn_off_all_lights rest = true ∧
          firstSuccess rest = some k' := by
        refine ih k' ?_ ?_
        · simpa [List.get?] using hk
        · intro j hj
          have := hfirst (j + 1) (Nat.succ_lt_succ hj)
          simpa [List.get?] using this
      obtain ⟨h1, h2, h3⟩ := hrest
      cases o with
      | ok b =>
        cases b with
        | true => exact absurd rfl hhead
        | false =>
          exact ⟨by simp [invokedCount, h1],
            by simpa [turn_off_all_lights] using h2,
            by simp [firstSuccess, h3]⟩
      | exc =>
        exact ⟨by simp [invokedCount, h1],
          by simpa [turn_off_all_lights] using h2,
          by simp [firstSuccess, h3]⟩

/-- C1: if strategy `k` is the first success, all earlier strategies were
invoked and failed, no later one was invoked, and dispatch succeeds
identifying strategy `k`; the `dev003.py` fallback loop follows the same
dispatcher semantics. -/
theorem dispatch_first_success (outcomes : List Outcome) (k : Nat)
    (hk : outcomes.get? k = some (Outcome.ok true))
    (hfirst : ∀ j, j < k → outcomes.get? j ≠ some (Outcome.ok true)) :
    (∀ j, j < k → j < invokedCount outcomes ∧
        outcomes.get? j ≠ some (Outcome.ok true)) ∧
    invokedCount outcomes = k + 1 ∧
    turn_off_all_lights outcomes = true ∧
    firstSuccess outcomes = some k ∧
    (∀ bs : List Bool, emergency_light_off bs =
        turn_off_all_lights (bs.map Outcome.ok)) := by
  obtain ⟨h1, h2, h3⟩ := dispatch_core outcomes k hk hfirst
  exact ⟨fun j hj => ⟨by omega, hfirst j hj⟩, h1, h2, h3,
    emergency_eq_dispatch⟩

/-- C1 witness: outcome list where index 2 is the first success. -/
theorem dispatch_first_success_witness :
    (∀ j, j < 2 → j < invokedCount
        [Outcome.exc, Outcome.ok false, Outcome.ok true, Outcome.ok true] ∧
        [Outcome.exc, Outcome.ok false, Outcome.ok true,
          Outcome.ok true].get? j ≠ some (Outcome.ok true)) ∧
    invokedCount
        [Outcome.exc, Outcome.ok false, Outcome.ok true, Outcome.ok true]
      = 2 + 1 ∧
    turn_off_all_lights
        [Outcome.exc, Outcome.ok false, Outcome.ok true, Outcome.ok true]
      = true ∧
    firstSuccess
        [Outcome.exc, Outcome.ok false, Outcome.ok true, Outcome.ok true]
      = some 2 ∧
    (∀ bs : List Bool, emergency_light_off bs =
        turn_off_all_lights (bs.map Outcome.ok)) :=
  dispatch_first_success
    [Outcome.exc, Outcome.ok false, Outcome.ok true, Outcome.ok true] 2
    (by decide) (by decide)

/-- C2: single-strategy failures (exception or `False` return) are
swallowed — an exception behaves exactly like a `False` return — the
dispatcher is total (never raises), and it returns overall failure
exactly when every strategy in the chain failed. -/
theorem dispatch_failure_swallowed (outcomes pre post : List Outcome) :
    turn_off_all_lights (pre ++ Outcome.exc :: post) =
      turn_off_all_lights (pre ++ Outcome.ok false :: post) ∧
    (turn_off_all_lights outcomes = false ↔
      ∀ o ∈ outcomes, strategySuccess o = false) := by
  constructor
  · induction pre with
    | nil => rfl
    | cons o rest ih =>
      cases o with
      | ok b =>
        cases b with
        | true => rfl
        | false => simpa [turn_off_all_lights] using ih
      | exc => simpa [turn_off_all_lights] using ih
  · rw [turn_off_all_lights_eq_any]
    simp [List.any_eq_true]

/-- C2 witness: concrete failure chain with an exception in the middle. -/
theorem dispatch_failure_swallowed_witness :
    turn_off_all_lights [Outcome.ok false, Outcome.exc, Outcome.ok false] =
      turn_off_all_lights
        [Outcome.ok false, Outcome.ok false, Outcome.ok false] ∧
    (turn_off_all_lights [Outcome.ok false, Outcome.exc, Outcome.ok false]
        = false ↔
      ∀ o ∈ ([Outcome.ok false, Outcome.exc, Outcome.ok false] :
          List Outcome), strategySuccess o = false) :=
  dispatch_failure_swallowed
    [Outcome.ok false, Outcome.exc, Outcome.ok false]
    [Outcome.ok false] [Outcome.ok false]

/-- C9: dispatching the same turn-off command twice against a stub whose
per-strategy responses do not change returns success both times whenever
some strategy's outcome is transport-level acceptance — an already-off
controller that still answers 200 yields success on both dispatches. -/
theorem dispatch_idempotent (outcomes : List Outcome)
    (h : Outcome.ok true ∈ outcomes) :
    dispatch_twice outcomes = (true, true) := by
  have hdisp : turn_off_all_lights outcomes = true := by
    rw [turn_off_all_lights_eq_any, List.any_eq_true]
    exact ⟨Outcome.ok true, h, rfl⟩
  simp [dispatch_twice, hdisp]

/-- C9 witness: an already-off stub whose REST strategy answers 200. -/
theorem dispatch_idempotent_witness :
    dispatch_twice [Outcome.ok true, Outcome.exc] = (true, true) :=
  dispatch_idempotent [Outcome.ok true, Outcome.exc] (by decide)

/-! ### Zone-by-zone fallback (`dev001.py:347-395`) -/

/-- The `success_count` accumulator of
`BMSLightController._turn_off_zone_by_zone`: one increment per zone whose
`turn_off_zone` call returned `True`. The list argument is the per-zone
command outcome. -/
def zone_success_count : List Bool → Nat
  | [] => 0
  | true :: rest => zone_success_count rest + 1
  | false :: rest => zone_success_count rest

/-- Number of zones whose off-command failed (the spec's `failureCount`;
derived measure — the source only counts successes). -/
def zone_failure_count : List Bool → Nat
  | [] => 0
  | true :: rest => zone_failure_count rest
  | false :: rest => zone_failure_count rest + 1

/-- `BMSLightController._turn_off_zone_by_zone` result (`dev001.py:347-369`):
an empty zone list returns `False`; otherwise the loop runs and the result
is `success_count > 0`. -/
def turn_off_zone_by_zone (zones : List Bool) : Bool :=
  if zones.isEmpty then false else decide (0 < zone_success_count zones)

/-- Observable event of the zone loop: a per-zone off-command, or the
`time.sleep(0.5)` pacing delay. -/
inductive ZoneEv
  | cmd (z : Nat)
  | sleep
deriving DecidableEq, Repr

/-- Trace of the loop body of `_turn_off_zone_by_zone`
(`dev001.py:358-363`): for each `(zoneId, outcome)` pair in list order,
issue the off-command; the `time.sleep(0.5)` sits inside the success
branch, so the delay is emitted only after a successful zone. The trace is
a single sequential list: no two commands overlap. -/
def zone_trace : List (Nat × Bool) → List ZoneEv
  | [] => []
  | (z, res) :: rest =>
      if res then ZoneEv.cmd z :: ZoneEv.sleep :: zone_trace rest
      else ZoneEv.cmd z :: zone_trace rest

/-- Modelled from the spec's words (§4.5): "wait `interDelay` before the
next zone regardless of outcome" — a delay event after every zone's
command, successful or not. Spec-side model for comparison with
`zone_trace`. -/
def zone_trace_delay_always : List (Nat × Bool) → List ZoneEv
  | [] => []
  | (z, _) :: rest => ZoneEv.cmd z :: ZoneEv.sleep :: zone_trace_delay_always rest

/-- The zone id carried by a command event, if any. -/
def zoneCmd : ZoneEv → Option Nat
  | ZoneEv.cmd z => some z
  | ZoneEv.sleep => none

/-- Whether an event is the pacing delay. -/
def isSleep : ZoneEv → Bool
  | ZoneEv.sleep => true
  | _ => false

/-- C3: for a non-empty zone list the aggregate result is success exactly
when at least one zone command succeeded; on 3 zones with zone 2 failing,
`successCount = 2`, `failureCount = 1`, overall success. -/
theorem zone_aggregation (zones : List Bool) (h : zones ≠ []) :
    (turn_off_zone_by_zone zones = true ↔ 0 < zone_success_count zones) ∧
    zone_success_count [true, false, true] = 2 ∧
    zone_failure_count [true, false, true] = 1 ∧
    turn_off_zone_by_zone [true, false, true] = true := by
  refine ⟨?_, by decide, by decide, by decide⟩
  rw [turn_off_zone_by_zone, if_neg (by simpa [List.isEmpty_iff] using h)]
  exact decide_eq_true_iff

/-- C3 witness: the concrete 3-zone scenario. -/
theorem zone_aggregation_witness :
    (turn_off_zone_by_zone [true, false, true] = true ↔
      0 < zone_success_count [true, false, true]) ∧
    zone_success_count [true, false, true] = 2 ∧
    zone_failure_count [true, false, true] = 1 ∧
    turn_off_zone_by_zone [true, false, true] = true :=
  zone_aggregation [true, false, true] (by decide)

/-- C4 counterexample: after a failed zone the loop proceeds immediately —
`zone_trace` emits no delay after zone 1's failed command, while the
spec's "delay regardless of outcome" model does. -/
theorem zone_trace_no_delay_after_failure :
    zone_trace [(1, false), (2, true)] =
      [ZoneEv.cmd 1, ZoneEv.cmd 2, ZoneEv.sleep] ∧
    zone_trace_delay_always [(1, false), (2, true)] =
      [ZoneEv.cmd 1, ZoneEv.sleep, ZoneEv.cmd 2, ZoneEv.sleep] ∧
    zone_trace [(1, false), (2, true)] ≠
      zone_trace_delay_always [(1, false), (2, true)] := by
  refine ⟨rfl, rfl, by decide⟩

theorem zone_trace_head_ne_sleep (zs : List (Nat × Bool)) :
    (zone_trace zs).get? 0 ≠ some ZoneEv.sleep := by
  cases zs with
  | nil => simp [zone_trace]
  | cons p rest =>
    obtain ⟨z, res⟩ := p
    cases res <;> simp [zone_trace]

theorem zone_trace_placement (pre : List (Nat × Bool)) (p : Nat × Bool)
    (post : List (Nat × Bool)) :
    (zone_trace (pre ++ p :: post)).get?
        (pre.length + zone_success_count (pre.map Prod.snd)) =
      some (ZoneEv.cmd p.1) ∧
    ((zone_trace (pre ++ p :: post)).get?
        (pre.length + zone_success_count (pre.map Prod.snd) + 1) =
      some ZoneEv.sleep ↔ p.2 = true) := by
  induction pre with
  | nil =>
    obtain ⟨z, res⟩ := p
    cases res with
    | true => exact ⟨rfl, iff_of_true rfl rfl⟩
    | false =>
      exact ⟨rfl, iff_of_false (zone_trace_head_ne_sleep post) (by simp)⟩
  | cons q qrest ih =>
    obtain ⟨w, qres⟩ := q
    obtain ⟨ih1, ih2⟩ := ih
    cases qres with
    | true =>
      have hidx : ((w, true) :: qrest).length +
          zone_success_count (((w, true) :: qrest).map Prod.snd) =
          qrest.length + zone_success_count (qrest.map Prod.snd) + 2 := by
        simp only [List.length_cons, List.map_cons, zone_success_count]
        omega
      constructor
      · rw [hidx]
        exact ih1
      · rw [hidx]
        exact ih2
    | false =>
      have hidx : ((w, false) :: qrest).length +
          zone_success_count (((w, false) :: qrest).map Prod.snd) =
          qrest.length + zone_success_count (qrest.map Prod.snd) + 1 := by
        simp only [List.length_cons, List.map_cons, zone_success_count]
        omega
      constructor
      · rw [hidx]
        exact ih1
      · rw [hidx]
        exact ih2

/-- C4 amended: the loop issues exactly one off-command per zone, in the
zone list's original order, as a single sequential trace; the pacing
delay is emitted only after zones whose off-command succeeded (one sleep
per success), and its placement is exact: for every zone of the list —
whose command sits at trace position `pre.length + successes in pre` —
the event immediately following that command is the delay precisely when
that zone's off-command succeeded; after a failed zone the next event is
never the delay. -/
theorem zone_trace_order_and_pacing (zones : List (Nat × Bool)) :
    (zone_trace zones).filterMap zoneCmd = zones.map Prod.fst ∧
    ((zone_trace zones).filter isSleep).length =
      zone_success_count (zones.map Prod.snd) ∧
    ∀ pre p post, zones = pre ++ p :: post →
      (zone_trace zones).get?
          (pre.length + zone_success_count (pre.map Prod.snd)) =
        some (ZoneEv.cmd p.1) ∧
      ((zone_trace zones).get?
          (pre.length + zone_success_count (pre.map Prod.snd) + 1) =
        some ZoneEv.sleep ↔ p.2 = true) := by
  refine ⟨?_, ?_, ?_⟩
  · induction zones with
    | nil => rfl
    | cons p rest ih =>
      obtain ⟨z, res⟩ := p
      cases res with
      | true => simpa [zone_trace, zoneCmd, List.filterMap] using ih
      | false => simpa [zone_trace, zoneCmd, List.filterMap] using ih
  · induction zones with
    | nil => rfl
    | cons p rest ih =>
      obtain ⟨z, res⟩ := p
      cases res with
      | true =>
        simpa [zone_trace, isSleep, zone_success_count, List.filter] using ih
      | false =>
        simpa [zone_trace, isSleep, zone_success_count, List.filter] using ih
  · intro pre p post hsplit
    subst hsplit
    exact zone_trace_placement pre p post

/-- C4 amended witness: for `[(1, false), (2, true)]`, zone 2's command
sits at trace position 1 and is followed by the delay, zone 1's failed
command is not. -/
theorem zone_trace_order_and_pacing_witness :
    (zone_trace [(1, false), (2, true)]).filterMap zoneCmd =
      ([(1, false), (2, true)] : List (Nat × Bool)).map Prod.fst ∧
    ((zone_trace [(1, false), (2, true)]).filter isSleep).length =
      zone_success_count
        (([(1, false), (2, true)] : List (Nat × Bool)).map Prod.snd) ∧
    ((zone_trace [(1, false), (2, true)]).get?
        (([(1, false)] : List (Nat × Bool)).length +
          zone_success_count
            (([(1, false)] : List (Nat × Bool)).map Prod.snd)) =
      some (ZoneEv.cmd (2, true).1) ∧
    ((zone_trace [(1, false), (2, true)]).get?
        (([(1, false)] : List (Nat × Bool)).length +
          zone_success_count
            (([(1, false)] : List (Nat × Bool)).map Prod.snd) + 1) =
      some ZoneEv.sleep ↔ ((2 : Nat), true).2 = true)) := by
  have h := zone_trace_order_and_pacing [(1, false), (2, true)]
  exact ⟨h.1, h.2.1, h.2.2 [(1, false)] (2, true) [] rfl⟩

/-! ### Protocol probe and discovery (`dev003.py:14-75`, `dev001.py:86-97`) -/

/-- Result of the TCP `connect_ex` attempt: an OS error code (`0` means
connected) or an exception raised before/at connect. -/
inductive ConnectRes
  | ret (code : Int)
  | exc
deriving DecidableEq, Repr

/-- Result of the UDP `sendto` attempt: the datagram left the socket, or
an exception was raised. -/
inductive SendRes
  | sent
  | exc
deriving DecidableEq, Repr

/-- `BuildingLightController.check_controller` (`dev003.py:57-75`): for
TCP/HTTP, reachable iff `connect_ex` returned `0`; for UDP, reachable iff
the single probe datagram send raised no exception — no response is read;
every exception is caught and becomes `False`; unknown transports return
`False`. -/
def check_controller (protocol : String) (conn : ConnectRes)
    (dgram : SendRes) : Bool :=
  if protocol = "TCP" ∨ protocol = "HTTP" then
    match conn with
    | ConnectRes.ret code => decide (code = 0)
    | ConnectRes.exc => false
  else if protocol = "UDP" then
    match dgram with
    | SendRes.sent => true
    | SendRes.exc => false
  else false

/-- `BMSLightController._try_bacnet` (`dev001.py:86-97`): TCP connect to
port 47808, returning the protocol label on code `0`, `None` otherwise;
exceptions are swallowed into `None`. -/
def try_bacnet : ConnectRes → Option String
  | ConnectRes.ret code => if code = 0 then some "BACnet" else none
  | ConnectRes.exc => none

/-- Catalog entry of `BuildingLightController.building_protocols`
(`dev003.py:16-24`). -/
structure ProtoInfo where
  port : Nat
  transport : String
deriving DecidableEq, Repr

/-- `self.building_protocols` (`dev003.py:16-24`), in dict insertion
order. -/
def building_protocols : List (String × ProtoInfo) :=
  [("knx", ⟨3671, "UDP"⟩),
   ("modbus", ⟨502, "TCP"⟩),
   ("bacnet", ⟨47808, "UDP"⟩),
   ("dali", ⟨50000, "TCP"⟩),
   ("opcua", ⟨4840, "TCP"⟩),
   ("rest_api", ⟨80, "HTTP"⟩),
   ("mqtt", ⟨1883, "TCP"⟩)]

/-- `self.common_controllers` (`dev003.py:27-36`). -/
def common_controllers : List String :=
  ["192.168.1.100", "192.168.1.101", "192.168.1.200", "192.168.1.201",
   "192.168.1.10", "192.168.1.50", "plc.local", "building-ctrl.local"]

/-- One entry of the discovery result (`dev003.py:47-52`). -/
structure Found where
  ip : String
  port : Nat
  protocol : String
  type : String
deriving DecidableEq, Repr

/-- `BuildingLightController.discover_building_controllers`
(`dev003.py:38-55`): nested loops over targets × catalog, appending an
entry for every pair whose `check_controller` probe reports reachable.
`probe ip port transport` abstracts that probe's outcome. -/
def discover_building_controllers
    (probe : String → Nat → String → Bool) : List Found :=
  common_controllers.flatMap fun ip =>
    (building_protocols.filter fun p =>
        probe ip p.2.port p.2.transport).map fun p =>
      ⟨ip, p.2.port, p.1, p.2.transport⟩

/-- The full target × catalog cross-product, as result entries. -/
def crossFound : List Found :=
  common_controllers.flatMap fun ip =>
    building_protocols.map fun p => ⟨ip, p.2.port, p.1, p.2.transport⟩

theorem discover_eq_filter (probe : String → Nat → String → Bool) :
    discover_building_controllers probe =
      crossFound.filter fun f => probe f.ip f.port f.type := by
  rw [discover_building_controllers, crossFound, List.filter_flatMap]
  refine congrArg _ (funext fun ip => ?_)
  induction building_protocols with
  | nil => rfl
  | cons p rest ih =>
    by_cases hp : probe ip p.2.port p.2.transport
    · simp [List.filter, hp, ih]
    · simp [List.filter, hp, ih]

theorem crossFound_nodup : crossFound.Nodup := by decide

/-- C5: for every catalog entry whose transport is UDP and every target,
once the probe datagram send completes without error the probe reports
reachable, whatever the TCP-connect oracle would have said — no response
or acknowledgment is consulted. -/
theorem udp_probe_reachable (e : String × ProtoInfo)
    (_he : e ∈ building_protocols) (hudp : e.2.transport = "UDP")
    (conn : ConnectRes) :
    check_controller e.2.transport conn SendRes.sent = true := by
  rw [hudp]
  unfold check_controller
  rw [if_neg (by decide), if_pos rfl]

/-- C5 witness: the KNX catalog entry. -/
theorem udp_probe_reachable_witness :
    check_controller ("knx", (⟨3671, "UDP"⟩ : ProtoInfo)).2.transport
      ConnectRes.exc SendRes.sent = true :=
  udp_probe_reachable ("knx", ⟨3671, "UDP"⟩) (by decide) rfl ConnectRes.exc

/-- C6: the probe is a total function (never raises in the embedding) and
every transport error becomes `reachable = false`: a TCP/HTTP connect
exception, a nonzero connect code (refused/unreachable), or a UDP send
exception all yield `false`; `_try_bacnet` likewise maps exceptions and
nonzero codes to `None`. -/
theorem probe_errors_become_false (code : Int) (hcode : code ≠ 0) :
    (∀ dgram, check_controller "TCP" ConnectRes.exc dgram = false) ∧
    (∀ dgram, check_controller "HTTP" ConnectRes.exc dgram = false) ∧
    (∀ dgram, check_controller "TCP" (ConnectRes.ret code) dgram = false) ∧
    (∀ dgram, check_controller "HTTP" (ConnectRes.ret code) dgram = false) ∧
    (∀ conn, check_controller "UDP" conn SendRes.exc = false) ∧
    try_bacnet ConnectRes.exc = none ∧
    try_bacnet (ConnectRes.ret code) = none := by
  refine ⟨fun _ => rfl, fun _ => rfl, ?_, ?_, ?_, rfl, ?_⟩
  · intro dgram
    unfold check_controller
    rw [if_pos (Or.inl rfl)]
    simpa using hcode
  · intro dgram
    unfold check_controller
    rw [if_pos (Or.inr rfl)]
    simpa using hcode
  · intro conn
    unfold check_controller
    rw [if_neg (by decide), if_pos rfl]
  · rw [try_bacnet, if_neg hcode]

/-- C6 witness: connection-refused code 111. -/
theorem probe_errors_become_false_witness :
    (∀ dgram, check_controller "TCP" ConnectRes.exc dgram = false) ∧
    (∀ dgram, check_controller "HTTP" ConnectRes.exc dgram = false) ∧
    (∀ dgram,
      check_controller "TCP" (ConnectRes.ret 111) dgram = false) ∧
    (∀ dgram,
      check_controller "HTTP" (ConnectRes.ret 111) dgram = false) ∧
    (∀ conn, check_controller "UDP" conn SendRes.exc = false) ∧
    try_bacnet ConnectRes.exc = none ∧
    try_bacnet (ConnectRes.ret 111) = none :=
  probe_errors_become_false 111 (by decide)

/-- C8: the discovery result contains exactly the cross-product pairs the
probe reported reachable, each at most once, and is deterministic: equal
probe oracles give equal results. -/
theorem discovery_result_characterization
    (probe probe2 : String → Nat → String → Bool) (f : Found)
    (hsame : ∀ ip port tr, probe ip port tr = probe2 ip port tr) :
    (f ∈ discover_building_controllers probe ↔
      f ∈ crossFound ∧ probe f.ip f.port f.type = true) ∧
    (discover_building_controllers probe).count f ≤ 1 ∧
    discover_building_controllers probe =
      discover_building_controllers probe2 := by
  refine ⟨?_, ?_, ?_⟩
  · rw [discover_eq_filter]
    simp [List.mem_filter]
  · rw [discover_eq_filter]
    exact List.nodup_iff_count_le_one.mp (crossFound_nodup.filter _) f
  · have : probe = probe2 :=
      funext fun ip => funext fun port => funext fun tr => hsame ip port tr
    rw [this]

/-- C8 witness: the all-reachable oracle; the KNX gateway pair appears
exactly once. -/
theorem discovery_result_characterization_witness :
    ((⟨"192.168.1.200", 3671, "knx", "UDP"⟩ : Found) ∈
        discover_building_controllers (fun _ _ _ => true) ↔
      (⟨"192.168.1.200", 3671, "knx", "UDP"⟩ : Found) ∈ crossFound ∧
        (fun (_ : String) (_ : Nat) (_ : String) => true)
          "192.168.1.200" 3671 "UDP" = true) ∧
    (discover_building_controllers (fun _ _ _ => true)).count
        ⟨"192.168.1.200", 3671, "knx", "UDP"⟩ ≤ 1 ∧
    discover_building_controllers (fun _ _ _ => true) =
      discover_building_controllers (fun _ _ _ => true) :=
  discovery_result_characterization (fun _ _ _ => true) (fun _ _ _ => true)
    ⟨"192.168.1.200", 3671, "knx", "UDP"⟩ (fun _ _ _ => rfl)

/-! ### Zone enumeration (`dev001.py:183-214`) -/

/-- Response of one zone-listing endpoint: the request raised, or it
returned a status code together with the outcome of parsing the body as a
zone list (`none` when `response.json()` would raise). Zones are
abstracted to their ids. -/
inductive EpResult
  | exc
  | status (code : Nat) (body : Option (List Nat))
deriving DecidableEq, Repr

/-- `BMSLightController.get_lighting_zones` (`dev001.py:183-214`): walk
the endpoint list; a request exception or a non-200 status skips to the
next endpoint; on a 200 response the parsed body is returned immediately
(a parse exception also skips); exhaustion returns the empty list. Total:
every exception is caught. -/
def get_lighting_zones : List EpResult → List Nat
  | [] => []
  | EpResult.exc :: rest => get_lighting_zones rest
  | EpResult.status code body :: rest =>
      if code = 200 then
        match body with
        | some zs => zs
        | none => get_lighting_zones rest
      else get_lighting_zones rest

/-- Modelled from the spec's words (§4.5): `enumerateZones` "returns the
first non-empty parseable list". Spec-side model for comparison with
`get_lighting_zones`. -/
def enumerateZonesSpec : List EpResult → List Nat
  | [] => []
  | EpResult.status code (some zs) :: rest =>
      if code = 200 ∧ zs ≠ [] then zs else enumerateZonesSpec rest
  | _ :: rest => enumerateZonesSpec rest

/-- Whether an endpoint response is a 200 with a parseable body — the
condition under which `get_lighting_zones` stops and returns. -/
def parses200 : EpResult → Bool
  | EpResult.status 200 (some _) => true
  | _ => false

/-- C7 counterexample: when the first endpoint answers 200 with a
parseable *empty* list and a later endpoint would give a non-empty list,
the source returns the empty list from the first endpoint instead of the
first non-empty parseable list the claim demands. -/
theorem zones_first_parseable_not_first_nonempty :
    get_lighting_zones
        [EpResult.status 200 (some []), EpResult.status 200 (some [7])]
      = [] ∧
    enumerateZonesSpec
        [EpResult.status 200 (some []), EpResult.status 200 (some [7])]
      = [7] ∧
    get_lighting_zones
        [EpResult.status 200 (some []), EpResult.status 200 (some [7])] ≠
      enumerateZonesSpec
        [EpResult.status 200 (some []), EpResult.status 200 (some [7])] := by
  refine ⟨rfl, rfl, by decide⟩

/-- C7 amended: `get_lighting_zones` returns the parsed body of the
*first* endpoint whose response is a 200 that parses — even when that
body is the empty list — skipping every earlier erroring, non-200, or
unparseable response; when no endpoint yields a parseable 200 response it
returns the empty list (a normal outcome, with every exception caught). -/
theorem zones_first_parseable (pre : List EpResult) (zs : List Nat)
    (post : List EpResult) (hpre : ∀ r ∈ pre, parses200 r = false) :
    get_lighting_zones (pre ++ EpResult.status 200 (some zs) :: post)
      = zs ∧
    (∀ rs : List EpResult, (∀ r ∈ rs, parses200 r = false) →
      get_lighting_zones rs = []) := by
  constructor
  · induction pre with
    | nil => rfl
    | cons r rest ih =>
      have hr : parses200 r = false := hpre r (List.mem_cons_self r rest)
      have hrest : ∀ x ∈ rest, parses200 x = false := fun x hx =>
        hpre x (List.mem_cons_of_mem r hx)
      cases r with
      | exc => simpa [get_lighting_zones] using ih hrest
      | status code body =>
        by_cases hc : code = 200
        · cases body with
          | none =>
            subst hc
            simpa [get_lighting_zones] using ih hrest
          | some ys =>
            subst hc
            simp [parses200] at hr
        · simpa [get_lighting_zones, hc] using ih hrest
  · intro rs hrs
    induction rs with
    | nil => rfl
    | cons r rest ih =>
      have hr : parses200 r = false := hrs r (List.mem_cons_self r rest)
      have hrest : ∀ x ∈ rest, parses200 x = false := fun x hx =>
        hrs x (List.mem_cons_of_mem r hx)
      cases r with
      | exc => simpa [get_lighting_zones] using ih hrest
      | status code body =>
        by_cases hc : code = 200
        · cases body with
          | none =>
            subst hc
            simpa [get_lighting_zones] using ih hrest
          | some ys =>
            subst hc
            simp [parses200] at hr
        · simpa [get_lighting_zones, hc] using ih hrest

/-- C7 witness: an erroring endpoint, then a 404, then the parseable 200. -/
theorem zones_first_parseable_witness :
    get_lighting_zones
        ([EpResult.exc, EpResult.status 404 (some [9])] ++
          EpResult.status 200 (some [3, 5]) :: [EpResult.status 200 (some [8])])
      = [3, 5] ∧
    (∀ rs : List EpResult, (∀ r ∈ rs, parses200 r = false) →
      get_lighting_zones rs = []) :=
  zones_first_parseable [EpResult.exc, EpResult.status 404 (some [9])]
    [3, 5] [EpResult.status 200 (some [8])] (by decide)

/-! ### TP-Link command encryption (`dev002.py:156-164`) -/

/-- The XOR-chain loop of `SmartHomeLightController.encrypt_tplink`: each
output byte is the running key XORed with the next plaintext code point,
and becomes the new key. -/
def xor_chain : Nat → List Nat → List Nat
  | _, [] => []
  | key, c :: rest => (key ^^^ c) :: xor_chain (key ^^^ c) rest

/-- `SmartHomeLightController.encrypt_tplink` (`dev002.py:156-164`): build
`bytearray([0, 0, 0, len(data)])` — which raises `ValueError` when
`len(data) > 255` — then append `key ^ ord(char)` for each character,
raising when an appended value exceeds 255. `none` models the raise;
`data` is the list of the command string's code points. -/
def encrypt_tplink (data : List Nat) : Option (List Nat) :=
  if 255 < data.length then none
  else
    let body := xor_chain 171 data
    if body.all (fun b => decide (b < 256)) then
      some (0 :: 0 :: 0 :: data.length :: body)
    else none

theorem xor_chain_length (key : Nat) (data : List Nat) :
    (xor_chain key data).length = data.length := by
  induction data generalizing key with
  | nil => rfl
  | cons c rest ih => simp [xor_chain, ih]

theorem xor_chain_lt (key : Nat) (data : List Nat) (hkey : key < 256)
    (hdata : ∀ c ∈ data, c < 256) :
    ∀ b ∈ xor_chain key data, b < 256 := by
  induction data generalizing key with
  | nil => intro b hb; simp [xor_chain] at hb
  | cons c rest ih =>
    intro b hb
    have hc : c < 256 := hdata c (List.mem_cons_self c rest)
    have hx : key ^^^ c < 256 := by
      have h2 : (256 : Nat) = 2 ^ 8 := by norm_num
      rw [h2] at hkey hc ⊢
      exact Nat.xor_lt_two_pow hkey hc
    rw [xor_chain] at hb
    rcases List.mem_cons.mp hb with h | h
    · exact h ▸ hx
    · exact ih (key ^^^ c) hx (fun x hx2 => hdata x (List.mem_cons_of_mem c hx2)) b h

theorem xor_chain_get (key : Nat) (data : List Nat) :
    ∀ i, i < data.length →
      (xor_chain key data).get? i =
        some ((if i = 0 then key
               else ((xor_chain key data).get? (i - 1)).getD 0) ^^^
              (data.get? i).getD 0) := by
  induction data generalizing key with
  | nil => intro i hi; simp at hi
  | cons c rest ih =>
    intro i hi
    cases i with
    | zero => simp [xor_chain, List.get?]
    | succ j =>
      have hj : j < rest.length := by simpa using hi
      have step := ih (key ^^^ c) j hj
      cases j with
      | zero =>
        simpa [xor_chain, List.get?] using step
      | succ m =>
        simpa [xor_chain, List.get?] using step

/-- C10: for a command whose length is at most 255 and whose code points
are below 256, `encrypt_tplink` returns a byte string of length
`len + 4`, header bytes `0, 0, 0, len`, and body forming the XOR chain
seeded with 171 (each ciphertext byte = plaintext byte XOR previous
ciphertext byte); for a command longer than 255 it raises
(returns `none`). -/
theorem encrypt_tplink_spec (data long : List Nat)
    (hlen : data.length ≤ 255) (hchars : ∀ c ∈ data, c < 256)
    (hlong : 255 < long.length) :
    encrypt_tplink long = none ∧
    ∃ out, encrypt_tplink data = some out ∧
      out.length = data.length + 4 ∧
      out.take 4 = [0, 0, 0, data.length] ∧
      ∀ i, i < data.length →
        out.get? (i + 4) =
          some ((if i = 0 then 171
                 else (out.get? (i + 3)).getD 0) ^^^
                (data.get? i).getD 0) := by
  constructor
  · rw [encrypt_tplink, if_pos hlong]
  · have hall : (xor_chain 171 data).all (fun b => decide (b < 256)) = true := by
      rw [List.all_eq_true]
      intro b hb
      exact decide_eq_true (xor_chain_lt 171 data (by norm_num) hchars b hb)
    refine ⟨0 :: 0 :: 0 :: data.length :: xor_chain 171 data, ?_, ?_, rfl, ?_⟩
    · rw [encrypt_tplink, if_neg (by omega)]
      simp only [hall, if_pos]
    · simp [xor_chain_length]
    · intro i hi
      have base := xor_chain_get 171 data i hi
      have hhead : ∀ n, (0 :: 0 :: 0 :: data.length :: xor_chain 171 data).get? (n + 4)
          = (xor_chain 171 data).get? n := fun n => rfl
      rw [hhead i, base]
      cases i with
      | zero => simp
      | succ m =>
        have hprev : (0 :: 0 :: 0 :: data.length ::
            xor_chain 171 data).get? (m + 4) = (xor_chain 171 data).get? m :=
          rfl
        simp only [Nat.succ_ne_zero, if_false, hprev, Nat.add_sub_cancel]

/-- C10 witness: the two-byte command `[1, 2]` and a 256-byte command. -/
theorem encrypt_tplink_spec_witness :
    encrypt_tplink (List.replicate 256 0) = none ∧
    ∃ out, encrypt_tplink [1, 2] = some out ∧
      out.length = ([1, 2] : List Nat).length + 4 ∧
      out.take 4 = [0, 0, 0, ([1, 2] : List Nat).length] ∧
      ∀ i, i < ([1, 2] : List Nat).length →
        out.get? (i + 4) =
          some ((if i = 0 then 171
                 else (out.get? (i + 3)).getD 0) ^^^
                (([1, 2] : List Nat).get? i).getD 0) :=
  encrypt_tplink_spec [1, 2] (List.replicate 256 0) (by decide)
    (by decide) (by rw [List.length_replicate]; omega)

end LightsOff
